import Mathlib

/-!
Verification of the chat backend (FastAPI + SQLAlchemy) against its
specification.  The Python sources under `backend/app` are shallowly
embedded: the store is a list of rows with a store-assigned id counter
and clock; Python exceptions are `Except.error` values; the dynamic
attribute lookups and call-arity checks that the source relies on are
made explicit, because several of the claims turn exactly on them.
-/

/-- Python-level failures that the embedded code can raise. -/
inductive PyErr where
  | attributeError (cls attr : String)
  | typeError (msg : String)
  | indexError (msg : String)
  | apiError (msg : String)
deriving DecidableEq, Repr

/-- A JSON-ish scalar value, used for request-body fields and for the
dynamically typed `user_id` attribute. -/
inductive JVal where
  | str (s : String)
  | int (n : Int)
  | bool (b : Bool)
  | null
deriving DecidableEq, Repr

/-- A request body as FastAPI hands it to pydantic: either a JSON object
(an association list of fields) or some non-object JSON document. -/
inductive ReqBody where
  | obj (fields : List (String × JVal))
  | nonObj
deriving DecidableEq, Repr

/-- Looks a field up in a request body; `none` for non-object bodies and
for absent fields. -/
def ReqBody.field : ReqBody → String → Option JVal
  | .nonObj, _ => none
  | .obj fields, k => fields.lookup k

/-- One row of the `chat_messages` table (models.py, class `ChatMessage`):
columns `id`, `user_id`, `user_message`, `bot_response` (nullable),
`timestamp` (server-assigned). -/
structure ChatMessage where
  id : Nat
  user_id : JVal
  user_message : String
  bot_response : Option String
  timestamp : Nat
deriving DecidableEq, Repr

/-- The column names of `chat_messages` paired with their `primary_key`
flag, read off models.py lines 11..15. -/
def chat_messages_columns : List (String × Bool) :=
  [("id", true), ("user_id", true), ("user_message", false),
   ("bot_response", false), ("timestamp", false)]

/-- The composite primary key of `chat_messages`: the columns declared
with `primary_key=True`. -/
def chat_messages_primary_key : List String :=
  (chat_messages_columns.filter (fun c => c.2)).map (fun c => c.1)

/-- The persistence store: the rows of `chat_messages`, the next value of
the autoincrement `id` column, and the store clock that assigns
`timestamp` (`server_default=func.now()`). -/
structure Db where
  rows : List ChatMessage
  nextId : Nat
  clock : Nat
deriving DecidableEq, Repr

/-- A fresh store, as created by `Base.metadata.create_all`. -/
def emptyDb : Db := { rows := [], nextId := 1, clock := 0 }

/-- The pydantic request schema (schemas.py lines 5..6): a single
required text field `user_message`. -/
structure ChatRequest where
  user_message : String
deriving DecidableEq, Repr

/-- The declared attributes of a `ChatRequest` instance with their
values.  schemas.py declares only `user_message`; pydantic models expose
exactly their declared fields as attributes. -/
def ChatRequest.attrs (c : ChatRequest) : List (String × JVal) :=
  [("user_message", .str c.user_message)]

/-- Python dynamic attribute lookup: `obj.name` returns the attribute
value when `name` is declared, and raises `AttributeError` otherwise. -/
def pyGetAttr (cls : String) (attrs : List (String × JVal)) (name : String) :
    Except PyErr JVal :=
  match attrs.lookup name with
  | some v => .ok v
  | none => .error (.attributeError cls name)

/-- pydantic validation of a request body against `ChatRequest`
(schemas.py): the body must be an object carrying a `user_message`
field holding a string (pydantic v2 does not coerce numbers, booleans or
null into `str`); extra fields are ignored; the empty string is valid. -/
def parseChatRequest : ReqBody → Except String ChatRequest
  | .nonObj => .error "Input should be a valid dictionary"
  | .obj fields =>
    match fields.lookup "user_message" with
    | some (.str s) => .ok { user_message := s }
    | some _ => .error "Input should be a valid string"
    | none => .error "Field required"

/-- The pydantic response schema (schemas.py lines 8..14): exactly the
fields `user_message`, `bot_response` (optional), `timestamp`. -/
structure ChatResponse where
  user_message : String
  bot_response : Option String
  timestamp : Nat
deriving DecidableEq, Repr

/-- `ChatResponse.model_validate(chat_entry, from_attributes=True)`
(routes/chatbot.py line 15): builds the response from the attributes of
a stored row, field by declared field. -/
def ChatResponse.model_validate (entry : ChatMessage) : ChatResponse :=
  { user_message := entry.user_message
    bot_response := entry.bot_response
    timestamp := entry.timestamp }

/-- The JSON document FastAPI serializes a `ChatResponse` into: one pair
per declared field of the schema, in declaration order. -/
def ChatResponse.serialize (r : ChatResponse) : List (String × JVal) :=
  [("user_message", .str r.user_message),
   ("bot_response", match r.bot_response with | some s => .str s | none => .null),
   ("timestamp", .int (Int.ofNat r.timestamp))]

/-- One message of the provider payload (role and content). -/
structure ChatMsg where
  role : String
  content : String
deriving DecidableEq, Repr

/-- One candidate returned by the provider. -/
structure Choice where
  message : ChatMsg
deriving DecidableEq, Repr

/-- The provider response: a list of candidate choices. -/
structure ChatCompletion where
  choices : List Choice
deriving DecidableEq, Repr

/-- The external completion provider (the Groq client): given the
message list and model name, returns a completion or raises. -/
def Provider : Type := List ChatMsg → String → Except PyErr ChatCompletion

/-- The fixed system instruction of services/ai_engine.py lines 13..19
(adjacent Python string literals concatenate with no separator). -/
def system_prompt : String :=
  "You are an AI educational assistant. Your goal is to provide helpful, " ++
  "accurate, and engaging educational content. Explain concepts clearly " ++
  "and provide examples when appropriate." ++
  "if not explicity specified, give a concise and simple to understand explanation" ++
  "You can then ask if the user understands or want a indepth explanation"

/-- The model name passed to the provider (ai_engine.py line 37). -/
def groq_model : String := "llama-3.3-70b-versatile"

/-- services/ai_engine.py, `get_response`: submit the system instruction
and the user message to the provider and return the content of the first
candidate; `response.choices[0]` raises `IndexError` when the candidate
list is empty, and any provider exception propagates. -/
def get_response (client : Provider) (user_message : String) :
    Except PyErr String := do
  let response ← client
    [{ role := "system", content := system_prompt },
     { role := "user", content := user_message }]
    groq_model
  match response.choices with
  | [] => .error (.indexError "list index out of range")
  | choice :: _ => pure choice.message.content

/-- crud.py `save_chat`: builds
`ChatMessage(user_id=chat.user_id, user_message=chat.user_message, bot_response=response)`
and inserts it.  The access `chat.user_id` is a dynamic attribute lookup
on the request object, so it is modelled through `pyGetAttr` over the
declared attributes of `ChatRequest`; on success the store assigns `id`
(autoincrement) and `timestamp` (store clock) and the new row is
committed. -/
def save_chat (db : Db) (chat : ChatRequest) (response : Option String) :
    Except PyErr (ChatMessage × Db) := do
  let uid ← pyGetAttr "ChatRequest" chat.attrs "user_id"
  let chat_entry : ChatMessage :=
    { id := db.nextId
      user_id := uid
      user_message := chat.user_message
      bot_response := response
      timestamp := db.clock }
  pure (chat_entry,
    { rows := db.rows ++ [chat_entry]
      nextId := db.nextId + 1
      clock := db.clock + 1 })

/-- crud.py `get_chat_history(db, user_id, limit=10)`: builds
`db.query(ChatMessage).filter(ChatMessage.user_id == user_id)` and then
chains `.orderby(...)` — SQLAlchemy `Query` objects have no attribute
`orderby` (the method is named `order_by`), so the chained lookup raises
`AttributeError` before any rows are returned. -/
def get_chat_history (db : Db) (user_id : JVal) (limit : Int) :
    Except PyErr (List ChatMessage) :=
  let _filtered := db.rows.filter (fun r => r.user_id == user_id)
  let _limit := limit
  .error (.attributeError "Query" "orderby")

/-- Python call semantics for `get_chat_history`: `user_id` is a
required positional parameter with no default, so a call that omits it
raises `TypeError` before the function body runs; `limit` defaults
to 10. -/
def get_chat_history_call (db : Db) (user_id : Option JVal)
    (limit : Option Int) : Except PyErr (List ChatMessage) :=
  match user_id with
  | none =>
    .error (.typeError "get_chat_history missing 1 required positional argument: user_id")
  | some uid => get_chat_history db uid (limit.getD 10)

/-- One entry of the history projection (routes/history.py line 13). -/
structure HistoryItem where
  user : String
  bot : Option String
deriving DecidableEq, Repr

/-- routes/history.py `get_history`: calls `get_chat_history(db)` —
passing only the session and omitting the required `user_id` — and
projects each returned row to its user and bot fields. -/
def get_history (db : Db) : Except PyErr (List HistoryItem) := do
  let chats ← get_chat_history_call db none none
  pure (chats.map (fun chat => { user := chat.user_message, bot := chat.bot_response }))

/-- routes/chatbot.py `create_chat`: obtain the provider reply for
`chat.user_message`, persist via `save_chat`, and return the validated
response model; any exception propagates to the framework. -/
def create_chat (client : Provider) (chat : ChatRequest) (db : Db) :
    Except PyErr (ChatResponse × Db) := do
  let response ← get_response client chat.user_message
  let (chat_entry, db') ← save_chat db chat (some response)
  pure (ChatResponse.model_validate chat_entry, db')

/-- The HTTP outcome of `POST /chat`: status code, optional response
body, resulting store, and how many times the provider was invoked. -/
structure ChatHttpResult where
  status : Nat
  body : Option ChatResponse
  db : Db
  providerCalls : Nat
deriving DecidableEq, Repr

/-- FastAPI dispatch of `POST /chat`: the body is validated against
`ChatRequest` before the handler runs — on validation failure FastAPI
answers 422 without invoking `create_chat` (so the provider is never
called and the store is untouched); otherwise the handler runs, calling
`get_response` exactly once, and an uncaught exception becomes a 500
response with the store unchanged. -/
def post_chat (client : Provider) (db : Db) (body : ReqBody) :
    ChatHttpResult :=
  match parseChatRequest body with
  | .error _ => { status := 422, body := none, db := db, providerCalls := 0 }
  | .ok chat =>
    match create_chat client chat db with
    | .error _ => { status := 500, body := none, db := db, providerCalls := 1 }
    | .ok (resp, db') =>
      { status := 200, body := some resp, db := db', providerCalls := 1 }

/-- The HTTP outcome of `GET /history`. -/
structure HistoryHttpResult where
  status : Nat
  body : Option (List HistoryItem)
  db : Db
deriving DecidableEq, Repr

/-- The query parameters declared by the `get_history` handler
(routes/history.py line 11): its only parameter is the `Depends(get_db)`
session, so no query parameter is declared. -/
def get_history_query_params : List String := []

/-- FastAPI binding of supplied query parameters: only parameters the
handler declares are bound and passed; the rest are ignored. -/
def bindQuery (declared : List String) (supplied : List (String × String)) :
    List (String × String) :=
  supplied.filter (fun p => declared.contains p.1)

/-- FastAPI dispatch of `GET /history`: bind the declared query
parameters (there are none), run the handler, and turn an uncaught
exception into a 500 response. -/
def history_endpoint (db : Db) (query : List (String × String)) :
    HistoryHttpResult :=
  let _bound := bindQuery get_history_query_params query
  match get_history db with
  | .error _ => { status := 500, body := none, db := db }
  | .ok items => { status := 200, body := some items, db := db }

/-- Session lifecycle events around one request. -/
inductive SessionEvt where
  | acquired
  | released
deriving DecidableEq, Repr

/-- The `try ... finally` of services/database.py `get_db`: the
finalizer events run whether the body returned a value or raised. -/
def pyFinally {A : Type} (body : Except PyErr A)
    (finalizer : List SessionEvt) : Except PyErr A × List SessionEvt :=
  match body with
  | .ok a => (.ok a, finalizer)
  | .error e => (.error e, finalizer)

/-- services/database.py `get_db`: acquire a session
(`db = sessionlocal()`), hand it to the request handler (`yield db`),
and close it in the `finally` block on every exit path.  The returned
trace records the acquisition and release events in order. -/
def get_db_run {A : Type} (handler : Db → Except PyErr A) (db0 : Db) :
    Except PyErr A × List SessionEvt :=
  let acq := [SessionEvt.acquired]
  let (result, fin) := pyFinally (handler db0) [SessionEvt.released]
  (result, acq ++ fin)

/-- A public operation of the service: one `POST /chat` request or one
`GET /history` request.  These are the only operations the API exposes
over the store. -/
inductive PublicOp where
  | chat (client : Provider) (body : ReqBody)
  | history (query : List (String × String))

/-- The store after one public operation. -/
def applyOp (db : Db) : PublicOp → Db
  | .chat client body => (post_chat client db body).db
  | .history query => (history_endpoint db query).db

/-- The store after a sequence of public operations. -/
def runOps (db : Db) : List PublicOp → Db
  | [] => db
  | op :: ops => runOps (applyOp db op) ops

/-- Uniqueness of the `id` column across the stored rows. -/
def uniqueIds (db : Db) : Prop := (db.rows.map (fun r => r.id)).Nodup

instance (db : Db) : Decidable (uniqueIds db) := by
  unfold uniqueIds; infer_instance

/-- A provider that always succeeds with one candidate. -/
def okProvider : Provider :=
  fun _ _ => .ok { choices := [{ message := { role := "assistant", content := "sure" } }] }

/-- A provider whose call always raises (network failure). -/
def downProvider : Provider :=
  fun _ _ => .error (.apiError "Connection error")

/-- A provider that succeeds but returns an empty candidate list. -/
def emptyChoicesProvider : Provider :=
  fun _ _ => .ok { choices := [] }

/-- A sample store holding two committed exchanges. -/
def dbTwo : Db :=
  { rows :=
      [{ id := 1, user_id := .int 1, user_message := "What is gravity",
         bot_response := some "A force", timestamp := 0 },
       { id := 2, user_id := .int 1, user_message := "And light",
         bot_response := none, timestamp := 1 }]
    nextId := 3
    clock := 2 }

theorem save_chat_user_id_err (db : Db) (chat : ChatRequest)
    (response : Option String) :
    save_chat db chat response
      = .error (.attributeError "ChatRequest" "user_id") := rfl

theorem create_chat_err (client : Provider) (chat : ChatRequest) (db : Db) :
    ∃ e, create_chat client chat db = .error e := by
  cases h : get_response client chat.user_message with
  | error e =>
    refine ⟨e, ?_⟩
    unfold create_chat
    rw [h]
    rfl
  | ok response =>
    refine ⟨.attributeError "ChatRequest" "user_id", ?_⟩
    unfold create_chat
    rw [h]
    rfl

theorem post_chat_db_eq (client : Provider) (db : Db) (body : ReqBody) :
    (post_chat client db body).db = db := by
  cases hp : parseChatRequest body with
  | error msg => simp [post_chat, hp]
  | ok chat =>
    obtain ⟨e, he⟩ := create_chat_err client chat db
    simp [post_chat, hp, he]

theorem history_endpoint_db_eq (db : Db) (query : List (String × String)) :
    (history_endpoint db query).db = db := rfl

theorem runOps_db_eq (db : Db) (ops : List PublicOp) : runOps db ops = db := by
  induction ops generalizing db with
  | nil => rfl
  | cons op ops ih =>
    have hop : applyOp db op = db := by
      cases op with
      | chat client body => exact post_chat_db_eq client db body
      | history query => exact history_endpoint_db_eq db query
    rw [runOps, hop, ih]

/-- C1: the claim says every text `user_message` gets a 200 echoing the
input; on the code, a well-formed body with a succeeding provider makes
`save_chat` raise `AttributeError` on `chat.user_id` (schemas.ChatRequest
declares no such field), so `POST /chat` answers 500 with no body and no
row persisted — contradicting the unit and integration tests that expect
the happy path to succeed. -/
theorem c1_valid_chat_returns_500_not_200 :
    (post_chat okProvider emptyDb (.obj [("user_message", .str "hello")])).status = 500
    ∧ (post_chat okProvider emptyDb (.obj [("user_message", .str "hello")])).body = none
    ∧ (post_chat okProvider emptyDb (.obj [("user_message", .str "hello")])).db = emptyDb :=
  ⟨rfl, rfl, rfl⟩

/-- C2: the claim says `GET /history` accepts an optional `limit`
(default 10) and returns the most recent records projected to user and
bot fields; on the code, the route declares no `limit` parameter and
calls `get_chat_history(db)` without the required `user_id` argument, so
the handler raises `TypeError` and the endpoint answers 500 with no body
even on a store holding records — contradicting the unit tests that call
`get_chat_history(db_session)` and expect ordered results. -/
theorem c2_history_raises_type_error :
    (history_endpoint dbTwo [("limit", "5")]).status = 500
    ∧ (history_endpoint dbTwo [("limit", "5")]).body = none
    ∧ get_history dbTwo
        = .error (.typeError "get_chat_history missing 1 required positional argument: user_id") :=
  ⟨rfl, rfl, rfl⟩

/-- C3: whenever the provider call inside `POST /chat` fails — network
error or empty candidate list — the endpoint surfaces a server error
(500) and the store is unchanged: the fixed policy of the code is to
persist nothing on provider failure, since the exception propagates
before `save_chat` runs. -/
theorem c3_provider_failure_is_500_and_no_persist
    (client : Provider) (db : Db) (body : ReqBody) (chat : ChatRequest)
    (e : PyErr)
    (hparse : parseChatRequest body = .ok chat)
    (hfail : get_response client chat.user_message = .error e) :
    (post_chat client db body).status = 500
    ∧ (post_chat client db body).db = db := by
  have hcc : create_chat client chat db = .error e := by
    unfold create_chat
    rw [hfail]
    rfl
  simp [post_chat, hparse, hcc]

/-- C3 witness: a concrete provider that raises a connection error, on a
concrete valid request against the empty store. -/
theorem c3_provider_failure_witness :
    parseChatRequest (.obj [("user_message", .str "hi")]) = .ok { user_message := "hi" }
    ∧ get_response downProvider "hi" = .error (.apiError "Connection error")
    ∧ ((post_chat downProvider emptyDb (.obj [("user_message", .str "hi")])).status = 500
       ∧ (post_chat downProvider emptyDb (.obj [("user_message", .str "hi")])).db = emptyDb) :=
  ⟨rfl, rfl,
   c3_provider_failure_is_500_and_no_persist downProvider emptyDb
     (.obj [("user_message", .str "hi")]) { user_message := "hi" }
     (.apiError "Connection error") rfl rfl⟩

/-- C4: a request body that lacks `user_message`, or carries a
non-string value for it, is rejected by pydantic validation before the
handler runs: the endpoint answers with a client error (422), never
calls the provider, and leaves the store untouched. -/
theorem c4_invalid_body_rejected_before_side_effects
    (client : Provider) (db : Db) (body : ReqBody)
    (h : body.field "user_message" = none
         ∨ ∃ v, body.field "user_message" = some v ∧ ∀ s, v ≠ JVal.str s) :
    (post_chat client db body).status = 422
    ∧ (post_chat client db body).providerCalls = 0
    ∧ (post_chat client db body).db = db := by
  have hp : ∃ msg, parseChatRequest body = .error msg := by
    cases body with
    | nonObj => exact ⟨_, rfl⟩
    | obj fields =>
      rcases h with h | ⟨v, hv, hns⟩
      · simp only [ReqBody.field] at h
        exact ⟨"Field required", by simp [parseChatRequest, h]⟩
      · simp only [ReqBody.field] at hv
        cases v with
        | str s => exact absurd rfl (hns s)
        | int n =>
          exact ⟨"Input should be a valid string", by simp [parseChatRequest, hv]⟩
        | bool b =>
          exact ⟨"Input should be a valid string", by simp [parseChatRequest, hv]⟩
        | null =>
          exact ⟨"Input should be a valid string", by simp [parseChatRequest, hv]⟩
  obtain ⟨msg, hp⟩ := hp
  simp [post_chat, hp]

/-- C4 witness: a concrete body without the `user_message` field against
the empty store. -/
theorem c4_invalid_body_witness :
    (ReqBody.obj [("text", .str "hello")]).field "user_message" = none
    ∧ ((post_chat okProvider emptyDb (.obj [("text", .str "hello")])).status = 422
       ∧ (post_chat okProvider emptyDb (.obj [("text", .str "hello")])).providerCalls = 0
       ∧ (post_chat okProvider emptyDb (.obj [("text", .str "hello")])).db = emptyDb) :=
  ⟨rfl,
   c4_invalid_body_rejected_before_side_effects okProvider emptyDb
     (.obj [("text", .str "hello")]) (Or.inl rfl)⟩

/-- C5: `save_chat` reads the `user_id` attribute of its request
argument to fill the composite primary key `(id, user_id)` of
`chat_messages`, but the public `ChatRequest` schema declares no
`user_id` field, so the access raises `AttributeError` before any
insert; consequently no `POST /chat` request ever changes the store. -/
theorem c5_save_chat_fails_on_missing_user_id :
    ∀ (db : Db) (chat : ChatRequest) (response : Option String),
      save_chat db chat response
        = .error (.attributeError "ChatRequest" "user_id")
      ∧ chat_messages_primary_key = ["id", "user_id"]
      ∧ ∀ (client : Provider) (body : ReqBody), (post_chat client db body).db = db := by
  intro db chat response
  exact ⟨save_chat_user_id_err db chat response, rfl,
         fun client body => post_chat_db_eq client db body⟩

/-- C6: across any sequence of public operations (`POST /chat` and
`GET /history` are the only ones), every preexisting row survives
unchanged at its position — no public operation updates or deletes a
stored record — and uniqueness of the `id` column is preserved. -/
theorem c6_records_never_updated_or_deleted
    (db : Db) (ops : List PublicOp) (h : uniqueIds db) :
    db.rows <+: (runOps db ops).rows ∧ uniqueIds (runOps db ops) := by
  rw [runOps_db_eq db ops]
  exact ⟨List.prefix_refl _, h⟩

/-- C6 witness: a concrete two-row store with distinct ids, run through
one history read and one chat request. -/
theorem c6_records_immutable_witness :
    uniqueIds dbTwo
    ∧ (dbTwo.rows <+: (runOps dbTwo
          [.history [], .chat okProvider (.obj [("user_message", .str "more")])]).rows
       ∧ uniqueIds (runOps dbTwo
          [.history [], .chat okProvider (.obj [("user_message", .str "more")])])) :=
  ⟨by decide,
   c6_records_never_updated_or_deleted dbTwo
     [.history [], .chat okProvider (.obj [("user_message", .str "more")])]
     (by decide)⟩

/-- C7: the response record built at the success exit of `POST /chat`
(`ChatResponse.model_validate` of the stored row) serializes to exactly
the fields `user_message`, `bot_response`, `timestamp`, in that order,
and exposes no `id` field. -/
theorem c7_response_exposes_exactly_three_fields :
    ∀ (entry : ChatMessage),
      ((ChatResponse.model_validate entry).serialize.map Prod.fst
          = ["user_message", "bot_response", "timestamp"])
      ∧ "id" ∉ ((ChatResponse.model_validate entry).serialize.map Prod.fst) := by
  intro entry
  refine ⟨rfl, ?_⟩
  rw [show ((ChatResponse.model_validate entry).serialize.map Prod.fst)
        = ["user_message", "bot_response", "timestamp"] from rfl]
  decide

/-- C8: the claim says `GET /history` on an empty store returns an empty
sequence without error; on the code, the handler raises `TypeError`
(missing `user_id` argument to `get_chat_history`) even on the empty
store, so the endpoint answers 500 with no body instead of 200 with
an empty list. -/
theorem c8_history_on_empty_store_errors :
    (history_endpoint emptyDb []).status = 500
    ∧ (history_endpoint emptyDb []).body = none
    ∧ get_history emptyDb
        = .error (.typeError "get_chat_history missing 1 required positional argument: user_id") :=
  ⟨rfl, rfl, rfl⟩

/-- C9: the `get_history` handler declares no query parameters, so the
outcome of `GET /history` is independent of any supplied `limit` (or any
other) query parameter: two invocations against the same store, with
different query strings, produce identical responses. -/
theorem c9_history_independent_of_query_params :
    ∀ (db : Db) (q1 q2 : List (String × String)),
      history_endpoint db q1 = history_endpoint db q2
      ∧ get_history_query_params = [] := by
  intro db q1 q2
  exact ⟨rfl, rfl⟩

/-- C10: `get_db` acquires the session at request start and the
`finally` block releases it on every exit path: for every handler —
including one that raises — the event trace is exactly acquire then
release, and the handler outcome (value or exception) is passed
through. -/
theorem c10_session_released_on_every_exit_path :
    ∀ {A : Type} (handler : Db → Except PyErr A) (db : Db),
      (get_db_run handler db).2 = [SessionEvt.acquired, SessionEvt.released]
      ∧ (get_db_run handler db).1 = handler db := by
  intro A handler db
  cases h : handler db with
  | ok a => simp [get_db_run, pyFinally, h]
  | error e => simp [get_db_run, pyFinally, h]
